import Mathlib

/-
Verification development for the hh-auto application bot.

This file gives a shallow embedding, in Lean 4, of the core of the
repository: the dedup ledger (src/hh_bot/bot/state.py), the two-stage
filter pipeline (src/hh_bot/bot/filters.py), the cover-letter pipeline
(src/hh_bot/ai_generator/generator.py, src/hh_bot/scraper/resume_parser.py),
the OpenRouter fallback cascade, the response-modal handler
(src/hh_bot/scraper/apply.py) and the per-listing step of the session
runner (src/hh_bot/bot/runner.py), together with theorems settling the
frozen claims C1..C10 about them.

Python strings are modelled as `List Char` (`PyStr`); the Python string
operations used by the code (lower, strip, split, replace, rfind, in,
startswith, join) are re-implemented below with structural recursion so
that every definition evaluates inside the kernel.  SQLite state is
modelled as association lists together with an explicit connection/disk
pair; `datetime.utcnow()` is passed in as an explicit `now` argument.
-/

set_option maxRecDepth 8000

namespace HHBot

/-- PyStr models a Python `str` as its list of characters. -/
abbrev PyStr := List Char

/-- pstr converts a Lean string literal into the `PyStr` model. -/
def pstr (s : String) : PyStr := s.data

/-- isPySpace models the whitespace class used by Python `str.strip()` /
`str.split()` for the characters that occur in this code base. -/
def isPySpace (c : Char) : Bool :=
  c == ' ' || c == '\t' || c == '\n' || c == '\r' || c == '\x0b' || c == '\x0c'

/-- pyCharLower models Python `str.lower()` character-wise on the ASCII and
Cyrillic ranges used by the repository (other characters are untouched). -/
def pyCharLower (c : Char) : Char :=
  if 'A' ≤ c ∧ c ≤ 'Z' then Char.ofNat (c.toNat + 32)
  else if 'А' ≤ c ∧ c ≤ 'Я' then Char.ofNat (c.toNat + 32)
  else if c = 'Ё' then 'ё'
  else c

/-- pyLower models Python `str.lower()`. -/
def pyLower (s : PyStr) : PyStr := s.map pyCharLower

/-- pyStrip models Python `str.strip()`: drop whitespace on both ends. -/
def pyStrip (s : PyStr) : PyStr :=
  ((s.dropWhile isPySpace).reverse.dropWhile isPySpace).reverse

/-- startsWithPy s pre models Python `s.startswith(pre)`. -/
def startsWithPy : PyStr → PyStr → Bool
  | _, [] => true
  | [], _ :: _ => false
  | c :: cs, p :: ps => c == p && startsWithPy cs ps

/-- findSub? pat s returns the index of the first occurrence of `pat` in `s`
(Python `str.find` restricted to found/not-found use). -/
def findSub? (pat : PyStr) : PyStr → Option Nat
  | [] => none
  | c :: cs => if startsWithPy (c :: cs) pat then some 0 else (findSub? pat cs).map (· + 1)

/-- rfindSep pat s returns the index of the last occurrence of `pat` in `s`,
modelling Python `str.rfind` for a non-empty pattern. -/
def rfindSep (pat : PyStr) : PyStr → Option Nat
  | [] => none
  | c :: cs =>
    match rfindSep pat cs with
    | some j => some (j + 1)
    | none => if startsWithPy (c :: cs) pat then some 0 else none

/-- containsSub hay needle models Python `needle in hay`. -/
def containsSub (hay needle : PyStr) : Bool :=
  needle.isEmpty || (findSub? needle hay).isSome

/-- splitChar c s models Python `s.split(sep)` for a one-character separator. -/
def splitChar (c : Char) : PyStr → List PyStr
  | [] => [[]]
  | x :: xs =>
    match splitChar c xs with
    | [] => [[]]
    | h :: t => if x == c then [] :: h :: t else (x :: h) :: t

/-- pyJoinRest sep l is the tail part of Python `sep.join`: it prepends `sep`
to every element. -/
def pyJoinRest (sep : PyStr) : List PyStr → PyStr
  | [] => []
  | y :: ys => sep ++ y ++ pyJoinRest sep ys

/-- pyJoin sep l models Python `sep.join(l)`. -/
def pyJoin (sep : PyStr) : List PyStr → PyStr
  | [] => []
  | x :: xs => x ++ pyJoinRest sep xs

/-- pySplitGo is the fuelled worker of `pySplitOn`; fuel `s.length` suffices
because every recursive call consumes at least one character. -/
def pySplitGo (pat : PyStr) : Nat → PyStr → List PyStr
  | 0, s => [s]
  | fuel + 1, s =>
    match findSub? pat s with
    | none => [s]
    | some i => s.take i :: pySplitGo pat fuel (s.drop (i + pat.length))

/-- pySplitOn pat s models Python `s.split(pat)` for a non-empty separator. -/
def pySplitOn (pat : PyStr) (s : PyStr) : List PyStr := pySplitGo pat s.length s

/-- strReplaceGo is the fuelled worker of `strReplace`. -/
def strReplaceGo (pat rep : PyStr) : Nat → PyStr → PyStr
  | 0, s => s
  | _ + 1, [] => []
  | fuel + 1, c :: cs =>
    if !pat.isEmpty && startsWithPy (c :: cs) pat then
      rep ++ strReplaceGo pat rep fuel ((c :: cs).drop pat.length)
    else c :: strReplaceGo pat rep fuel cs

/-- strReplace s pat rep models Python `s.replace(pat, rep)`
(left-to-right, non-overlapping, non-empty pattern). -/
def strReplace (s pat rep : PyStr) : PyStr := strReplaceGo pat rep s.length s

/-- charReplace s a b models Python `s.replace(a, b)` for one-character
pattern and replacement. -/
def charReplace (s : PyStr) (a b : Char) : PyStr :=
  s.map fun c => if c == a then b else c

/-- wordsAux is the worker for `pyWords` (Python `str.split()` without
arguments: split on whitespace runs, dropping empty pieces). -/
def wordsAux : PyStr → PyStr → List PyStr
  | [], acc => if acc.isEmpty then [] else [acc.reverse]
  | c :: cs, acc =>
    if isPySpace c then
      if acc.isEmpty then wordsAux cs [] else acc.reverse :: wordsAux cs []
    else wordsAux cs (c :: acc)

/-- pyWords models Python `s.split()` with no arguments. -/
def pyWords (s : PyStr) : List PyStr := wordsAux s []

/-! Section: Ledger: src/hh_bot/bot/state.py

`StateDB` keeps two SQLite tables, `applied_vacancies` and
`skipped_vacancies`, each with `vacancy_id` as PRIMARY KEY.  A table is
modelled as an association list from id to row; `INSERT OR REPLACE` is
`upsertRow`.  The sqlite connection buffer and the durable file are
modelled as the `conn` / `disk` components; `execute` mutates `conn`
and `commit` copies `conn` to `disk`. -/

/-- AppliedRow models one row of `applied_vacancies` (minus the id key). -/
structure AppliedRow where
  title : PyStr
  employer : PyStr
  url : PyStr
  applied_at : PyStr
deriving DecidableEq

/-- SkipRow models one row of `skipped_vacancies` (minus the id key). -/
structure SkipRow where
  title : PyStr
  employer : PyStr
  url : PyStr
  skipped_at : PyStr
  reason : PyStr
deriving DecidableEq

/-- LedgerData models the contents of the two tables of `StateDB`. -/
structure LedgerData where
  applied : List (PyStr × AppliedRow)
  skipped : List (PyStr × SkipRow)
deriving DecidableEq

/-- StateDB models the database handle: the connection state (`conn`,
what reads observe) and the durably committed state (`disk`). -/
structure StateDB where
  conn : LedgerData
  disk : LedgerData
deriving DecidableEq

/-- emptyLedger is a freshly created pair of tables. -/
def emptyLedger : LedgerData := ⟨[], []⟩

/-- emptyDB is `StateDB` right after `_init_schema` on a fresh file. -/
def emptyDB : StateDB := ⟨emptyLedger, emptyLedger⟩

/-- upsertRow models SQLite `INSERT OR REPLACE` keyed on the id column:
any existing row with the same key is replaced. -/
def upsertRow {α : Type} (id : PyStr) (row : α) (l : List (PyStr × α)) :
    List (PyStr × α) :=
  (l.filter fun p => !(p.1 == id)) ++ [(id, row)]

/-- restart models closing the process and reopening the database: only
the durably committed state survives. -/
def restart (db : StateDB) : StateDB := ⟨db.disk, db.disk⟩

/-- hasApplied models `StateDB.has_applied`: a row for the id exists in
`applied_vacancies`. -/
def hasApplied (db : StateDB) (vacancy_id : PyStr) : Bool :=
  (db.conn.applied.find? fun p => p.1 == vacancy_id).isSome

/-- hasSeen models `StateDB.has_seen`: applied or skipped. -/
def hasSeen (db : StateDB) (vacancy_id : PyStr) : Bool :=
  hasApplied db vacancy_id ||
    (db.conn.skipped.find? fun p => p.1 == vacancy_id).isSome

/-- markApplied models `StateDB.mark_applied`: one `INSERT OR REPLACE`
into `applied_vacancies` followed by `commit()` before returning.
`now` stands for `datetime.utcnow().isoformat()`. -/
def markApplied (db : StateDB) (vacancy_id title employer url now : PyStr) :
    StateDB :=
  let conn :=
    { db.conn with
      applied := upsertRow vacancy_id ⟨title, employer, url, now⟩ db.conn.applied }
  { conn := conn, disk := conn }

/-- markSkipped models `StateDB.mark_skipped`: one `INSERT OR REPLACE`
into `skipped_vacancies` followed by `commit()` before returning. -/
def markSkipped (db : StateDB) (vacancy_id title employer url reason now : PyStr) :
    StateDB :=
  let conn :=
    { db.conn with
      skipped := upsertRow vacancy_id ⟨title, employer, url, now, reason⟩ db.conn.skipped }
  { conn := conn, disk := conn }

/-- clearAll models `StateDB.clear_all`: DELETE from both tables, then
`commit()`. -/
def clearAll (_db : StateDB) : StateDB :=
  { conn := emptyLedger, disk := emptyLedger }

/-- countKey counts the rows stored under a given id. -/
def countKey {α : Type} (l : List (PyStr × α)) (id : PyStr) : Nat :=
  (l.filter fun p => p.1 == id).length

/-- countApplied counts the applied records for an id. -/
def countApplied (db : StateDB) (id : PyStr) : Nat := countKey db.conn.applied id

/-- countSkipped counts the skip records for an id. -/
def countSkipped (db : StateDB) (id : PyStr) : Nat := countKey db.conn.skipped id

/-- totalApplied is `COUNT(*)` over `applied_vacancies` as reported by
`StateDB.get_stats`. -/
def totalApplied (db : StateDB) : Nat := db.conn.applied.length

/-- totalSkipped is `COUNT(*)` over `skipped_vacancies` as reported by
`StateDB.get_stats`. -/
def totalSkipped (db : StateDB) : Nat := db.conn.skipped.length

/-- LOp enumerates the mutating operations of the ledger, with their
string arguments, for reasoning about reachable states. -/
inductive LOp where
  | markA (id title employer url now : PyStr)
  | markS (id title employer url reason now : PyStr)
  | clear
deriving DecidableEq

/-- applyOp runs one mutating ledger operation. -/
def applyOp (db : StateDB) : LOp → StateDB
  | .markA id t e u now => markApplied db id t e u now
  | .markS id t e u r now => markSkipped db id t e u r now
  | .clear => clearAll db

/-- runOps runs a sequence of mutating operations from the empty store:
the reachable ledger states. -/
def runOps (ops : List LOp) : StateDB := ops.foldl applyOp emptyDB

/-! Section: Data model and configuration

From src/hh_bot/scraper/search.py, src/hh_bot/scraper/vacancy.py,
src/hh_bot/scraper/resume_parser.py and src/hh_bot/utils/config.py.
Only fields the verified code reads are carried (numeric tuning knobs
such as temperature or delays are not consumed by the embedded logic).
`config.AuthConfig` is a pydantic model with exactly the fields `email`
and `telegram`; generator.py also reads `cfg.auth.name`, an attribute
that does not exist (and that the CLI override path cannot install —
pydantic v2 raises on `setattr` of an unknown field), so those reads
raise AttributeError; this is modelled explicitly below. -/

/-- VacancyCard models `search.VacancyCard`. -/
structure VacancyCard where
  vacancy_id : PyStr
  title : PyStr
  employer : PyStr
  url : PyStr
  has_quick_response : Bool
deriving DecidableEq

/-- VacancyDetails models `vacancy.VacancyDetails`. -/
structure VacancyDetails where
  vacancy_id : PyStr
  title : PyStr
  employer : PyStr
  url : PyStr
  description : PyStr
  has_test : Bool
  response_letter_required : Bool
  already_applied : Bool
  is_external : Bool
  archived : Bool
deriving DecidableEq

/-- ResumeInfo models the parsed resume record of resume handling code. -/
structure ResumeInfo where
  title : PyStr
  about : PyStr
  experience : PyStr
  skills : PyStr
  full_text : PyStr
deriving DecidableEq

/-- AuthConfig models `config.AuthConfig`: it defines exactly `email`
and `telegram`.  It has no `name` field; reading `cfg.auth.name` in the
source raises AttributeError (see `attributeErrorName`). -/
structure AuthConfig where
  email : PyStr
  telegram : PyStr
deriving DecidableEq

/-- FiltersConfig models `config.FiltersConfig`. -/
structure FiltersConfig where
  skip_with_tests : Bool
  skip_direct_vacancies : Bool
  blocked_keywords : List PyStr
  blocked_employers : List PyStr
deriving DecidableEq

/-- AIGenConfig models `config.AIGeneratorConfig` (the fields the
embedded logic reads: the enabled flag and the primary model id). -/
structure AIGenConfig where
  enabled : Bool
  api_key : PyStr
  model : PyStr
deriving DecidableEq

/-- CoverLetterConfig models `config.CoverLetterConfig`. -/
structure CoverLetterConfig where
  enabled : Bool
  always_include : Bool
  template : PyStr
  ai : AIGenConfig
deriving DecidableEq

/-- Config models the parts of `config.Config` the verified code reads. -/
structure Config where
  auth : AuthConfig
  filters : FiltersConfig
  cover_letter : CoverLetterConfig
deriving DecidableEq

/-- useAiCoverLetter models the `Config.use_ai_cover_letter` property. -/
def useAiCoverLetter (cfg : Config) : Bool :=
  cfg.cover_letter.enabled && cfg.cover_letter.ai.enabled

/-- configDefault mirrors the defaults of config.py (empty denylists,
`skip_with_tests` and `skip_direct_vacancies` on, cover letters off,
default template text, AI off with the default model id, empty auth). -/
def configDefault : Config :=
  { auth := ⟨[], []⟩
    filters := ⟨true, true, [], []⟩
    cover_letter :=
      ⟨false, false,
        pstr "Добрый день! Меня заинтересовала вакансия {vacancy_name} в компании {company_name}.\nГотов обсудить детали.",
        ⟨false, [], pstr "deepseek/deepseek-chat:free"⟩⟩ }

/-! Section: Filter pipeline: src/hh_bot/bot/filters.py -/

/-- FilterResult models `filters.FilterResult`. -/
structure FilterResult where
  skip : Bool
  reason : PyStr
deriving DecidableEq

/-- firstKeywordHit models the `for kw in denylist: if kw.lower() in
haystack: return ...` loops in `quick_filter`: first entry of the list
whose lowercase form is a substring of the (already lowercased)
haystack. -/
def firstKeywordHit (haystackLower : PyStr) : List PyStr → Option PyStr
  | [] => none
  | kw :: rest =>
    if containsSub haystackLower (pyLower kw) then some kw
    else firstKeywordHit haystackLower rest

/-- quickFilter embeds `filters.quick_filter`: already-seen check from
the ledger first, then blocked title keywords, then blocked employers,
in the order the loops run. -/
def quickFilter (cfg : Config) (db : StateDB) (card : VacancyCard) : FilterResult :=
  if hasSeen db card.vacancy_id then ⟨true, pstr "already_seen"⟩
  else
    match firstKeywordHit (pyLower card.title) cfg.filters.blocked_keywords with
    | some kw => ⟨true, pstr "blocked_keyword:" ++ kw⟩
    | none =>
      match firstKeywordHit (pyLower card.employer) cfg.filters.blocked_employers with
      | some emp => ⟨true, pstr "blocked_employer:" ++ emp⟩
      | none => ⟨false, []⟩

/-- quickFilterSpec restates the quick filter from the specification
text: (1) seen ids are skipped as "already_seen"; (2) otherwise the
first configured denylisted keyword occurring case-insensitively in the
title is reported; (3) otherwise the first denylisted employer substring
is reported; (4) otherwise no skip.  List search is phrased with
`List.find?` here. -/
def quickFilterSpec (cfg : Config) (db : StateDB) (card : VacancyCard) : FilterResult :=
  if hasSeen db card.vacancy_id then ⟨true, pstr "already_seen"⟩
  else
    match cfg.filters.blocked_keywords.find?
        (fun kw => containsSub (pyLower card.title) (pyLower kw)) with
    | some kw => ⟨true, pstr "blocked_keyword:" ++ kw⟩
    | none =>
      match cfg.filters.blocked_employers.find?
          (fun emp => containsSub (pyLower card.employer) (pyLower emp)) with
      | some emp => ⟨true, pstr "blocked_employer:" ++ emp⟩
      | none => ⟨false, []⟩

/-- deepFilter embeds `filters.deep_filter` with the checks in source
order; the cover-letter clause skips when letters are disabled or the
configured template is blank after `strip()`. -/
def deepFilter (cfg : Config) (d : VacancyDetails) : FilterResult :=
  if d.already_applied then ⟨true, pstr "already_applied"⟩
  else if d.archived then ⟨true, pstr "archived"⟩
  else if d.is_external && cfg.filters.skip_direct_vacancies then
    ⟨true, pstr "external_link"⟩
  else if d.has_test && cfg.filters.skip_with_tests then
    ⟨true, pstr "has_test"⟩
  else if d.response_letter_required &&
      (!cfg.cover_letter.enabled || (pyStrip cfg.cover_letter.template).isEmpty) then
    ⟨true, pstr "letter_required_no_template"⟩
  else ⟨false, []⟩

/-- deepRules restates the deep-filter rule table from the
specification: an ordered list of (condition, reason) pairs. -/
def deepRules (cfg : Config) (d : VacancyDetails) : List (Bool × PyStr) :=
  [(d.already_applied, pstr "already_applied"),
   (d.archived, pstr "archived"),
   (d.is_external && cfg.filters.skip_direct_vacancies, pstr "external_link"),
   (d.has_test && cfg.filters.skip_with_tests, pstr "has_test"),
   (d.response_letter_required &&
      (!cfg.cover_letter.enabled || (pyStrip cfg.cover_letter.template).isEmpty),
    pstr "letter_required_no_template")]

/-- firstVerdict returns the first applicable verdict of an ordered rule
table, or no-skip when no rule fires. -/
def firstVerdict : List (Bool × PyStr) → FilterResult
  | [] => ⟨false, []⟩
  | (cond, reason) :: rest => if cond then ⟨true, reason⟩ else firstVerdict rest

/-! Section: Cover-letter post-processing: src/hh_bot/ai_generator/generator.py -/

/-- subjectLine decides whether `_clean_cover_letter` drops a line:
its lowered, stripped form starts with "subject:" or "re:". -/
def subjectLine (line : PyStr) : Bool :=
  startsWithPy (pyStrip (pyLower line)) (pstr "subject:") ||
  startsWithPy (pyStrip (pyLower line)) (pstr "re:")

/-- cleanCoverLetter embeds `_clean_cover_letter`: drop code-fence
markers and Subject:/Re: lines, and prepend the default greeting when
the text does not start with an approved greeting. -/
def cleanCoverLetter (text : PyStr) : PyStr :=
  let t := strReplace (strReplace text (pstr "```") []) (pstr "```text") []
  let t := pyStrip (pyJoin (pstr "\n") ((splitChar '\n' t).filter fun l => !subjectLine l))
  if !(startsWithPy (pyLower t) (pstr "добрый") ||
       startsWithPy (pyLower t) (pstr "здравствуйте") ||
       startsWithPy (pyLower t) (pstr "уважаемый")) then
    pstr "Добрый день!\n\n" ++ t
  else t

/-- sepList is the ordered list of sentence-boundary separators searched
by `_truncate_letter`. -/
def sepList : List PyStr :=
  [pstr ". ", pstr "! ", pstr "? ", pstr ".\n", pstr "!\n", pstr "?\n"]

/-- truncAtSepGo walks the separator list of `_truncate_letter`: the
first separator whose last occurrence lies at index `j` with
`j > max_chars * 0.7` wins and the text is cut at `j + 1`.  The Python
comparison is against the float `max_chars * 0.7`; at the budget the
code uses (700) it is equivalent to the integer test `7 * maxChars ≤
10 * j` used here (both accept exactly `j ≥ 490`). -/
def truncAtSepGo (truncated : PyStr) (maxChars : Nat) : List PyStr → PyStr
  | [] => truncated
  | sep :: rest =>
    match rfindSep sep truncated with
    | some j =>
      if 7 * maxChars ≤ 10 * j then truncated.take (j + 1)
      else truncAtSepGo truncated maxChars rest
    | none => truncAtSepGo truncated maxChars rest

/-- truncAtSep is the boundary search of `_truncate_letter` over its
fixed separator list. -/
def truncAtSep (truncated : PyStr) (maxChars : Nat) : PyStr :=
  truncAtSepGo truncated maxChars sepList

/-- paragraphsOf embeds the paragraph split of `_truncate_letter`:
split on blank lines, strip each paragraph, drop empty ones. -/
def paragraphsOf (text : PyStr) : List PyStr :=
  ((pySplitOn (pstr "\n\n") text).map pyStrip).filter fun p => !p.isEmpty

/-- capParagraphs embeds the paragraph cap of `_truncate_letter`. -/
def capParagraphs (ps : List PyStr) (maxParagraphs : Nat) : List PyStr :=
  if maxParagraphs < ps.length then ps.take maxParagraphs else ps

/-- truncCore embeds the character-budget step of `_truncate_letter`:
when the joined text exceeds the budget, slice to the budget, search
backward for a sentence boundary, and strip. -/
def truncCore (result : PyStr) (maxChars : Nat) : PyStr :=
  if maxChars < result.length then
    pyStrip (truncAtSep (result.take maxChars) maxChars)
  else result

/-- endsTerminal models Python `result.endswith((".", "!", "?"))`. -/
def endsTerminal (s : PyStr) : Bool :=
  match s.getLast? with
  | some c => c == '.' || c == '!' || c == '?'
  | none => false

/-- terminalDot embeds the final step of `_truncate_letter`: append a
period unless the text already ends with `.`, `!` or `?`. -/
def terminalDot (r : PyStr) : PyStr :=
  if endsTerminal r then r else r ++ ['.']

/-- truncateLetter embeds `_truncate_letter(text, max_chars,
max_paragraphs)`: paragraph split and cap, budget-aware truncation at a
sentence boundary, and the terminal-punctuation fix-up. -/
def truncateLetter (text : PyStr) (maxChars maxParagraphs : Nat) : PyStr :=
  terminalDot (truncCore (pyJoin (pstr "\n\n") (capParagraphs (paragraphsOf text) maxParagraphs)) maxChars)

/-- PyResult is the outcome of a Python call that can raise: a normal
return value, or an uncaught exception with its message. -/
inductive PyResult where
  | ok (text : PyStr)
  | raised (msg : PyStr)
deriving DecidableEq

/-- attributeErrorName is the AttributeError raised by reading
`cfg.auth.name`: `config.AuthConfig` defines only `email` and
`telegram`, pydantic v2 raises AttributeError on access to an undefined
field, and the CLI override path (`_apply_overrides`, config.py:96)
raises on `setattr` of an unknown field before it could install one. -/
def attributeErrorName : PyStr :=
  pstr "AttributeError: AuthConfig object has no attribute name"

/-- importErrorAIProvider is the ImportError raised by
`from hh_bot.ai_generator.models import AIProvider` (generator.py:93):
models.py defines `AIModel` and `AIGeneratorConfig` but no
`AIProvider`. -/
def importErrorAIProvider : PyStr :=
  pstr "ImportError: cannot import name AIProvider"

/-- ensureLetterContacts embeds `_ensure_letter_contacts`.  The source
reads `cfg.auth.telegram` (present) and then `cfg.auth.name`
(generator.py:372) before doing anything with the text; `AuthConfig`
has no `name` attribute, so the call raises AttributeError and its
signature-cleaning and appending code (generator.py:375-396) is
unreachable. -/
def ensureLetterContacts (cfg : Config) (_text : PyStr) : PyResult :=
  let _telegram := cfg.auth.telegram
  .raised attributeErrorName

/-- postProcessOR is the post-processing the OpenRouter success path
applies to the model output (generator.py lines 197-204): strip, clean,
truncate to 700 chars / 5 paragraphs, then normalize contacts — the
last step of which raises (see `ensureLetterContacts`). -/
def postProcessOR (cfg : Config) (content : PyStr) : PyResult :=
  ensureLetterContacts cfg (truncateLetter (cleanCoverLetter (pyStrip content)) 700 5)

/-- aboutContactLine decides whether `_clean_about_text` drops a line as
contact info. -/
def aboutContactLine (line : PyStr) : Bool :=
  startsWithPy (pyLower line) (pstr "telegram") ||
  startsWithPy (pyLower line) (pstr "телеграм") ||
  startsWithPy (pyLower line) (pstr "e-mail") ||
  startsWithPy (pyLower line) (pstr "email") ||
  startsWithPy (pyLower line) (pstr "телефон") ||
  startsWithPy (pyLower line) (pstr "phone")

/-- aboutLocationLine decides whether `_clean_about_text` drops a line
as location info. -/
def aboutLocationLine (line : PyStr) : Bool :=
  containsSub (pyLower line) (pstr "грузия") ||
  containsSub (pyLower line) (pstr "тбилиси") ||
  containsSub (pyLower line) (pstr "открыт к")

/-- cleanAboutText embeds `_clean_about_text`: drop "О себе"/"About"
headers (one pattern contains a non-breaking space), drop contact and
location lines, and collapse whitespace. -/
def cleanAboutText (text : PyStr) : PyStr :=
  let t := strReplace (strReplace text (pstr "О себе") []) (pstr "О себе") []
  let t := strReplace (strReplace t (pstr "About") []) (pstr "ABOUT") []
  let lines := (splitChar '\n' t).map pyStrip
  let cleaned := lines.filter fun l =>
    !(l.isEmpty || aboutContactLine l || aboutLocationLine l)
  pyStrip (pyJoin (pstr " ") (pyWords (pyJoin (pstr " ") cleaned)))

/-! Section: Deterministic template generator:
generator.generate_fallback_cover_letter -/

/-- stripNonempty keeps a stripped skill entry when it is non-empty
(the `if s.strip()` comprehension guard). -/
def stripNonempty (s : PyStr) : Option PyStr :=
  let c := pyStrip s
  if c.isEmpty then none else some c

/-- skillsPartsOf embeds
`resume.skills.replace(",", "•").replace(";", "•").split("•")`. -/
def skillsPartsOf (skills : PyStr) : List PyStr :=
  splitChar '•' (charReplace (charReplace skills ',' '•') ';' '•')

/-- relevantSkills embeds the skill selection of
`generate_fallback_cover_letter`: skills whose lowercase form occurs in
the lowercase vacancy description, else the first three declared
skills. -/
def relevantSkills (skills : PyStr) (desc : Option PyStr) : List PyStr :=
  let matched :=
    match desc with
    | some d =>
      if !d.isEmpty && !skills.isEmpty then
        (skillsPartsOf skills).filterMap fun sk =>
          let c := pyStrip sk
          if !c.isEmpty && containsSub (pyLower d) (pyLower c) then some c else none
      else []
    | none => []
  if matched.isEmpty && !skills.isEmpty then
    ((skillsPartsOf skills).take 3).filterMap stripNonempty
  else matched

/-- aboutSentences embeds the sentence-accumulation loop over
`about_clean.split('. ')`: keep sentences while the running length stays
within 150 characters, then break. -/
def aboutSentences : List PyStr → Nat → List PyStr
  | [], _ => []
  | s :: rest, cur =>
    let s := pyStrip s
    if s.isEmpty then aboutSentences rest cur
    else
      let s := if s.getLast? == some '.' then s else s ++ ['.']
      if cur + s.length ≤ 150 then s :: aboutSentences rest (cur + s.length + 1)
      else []

/-- fallbackTail builds the parts the template generator appends after
the fixed greeting line, up to and including the Telegram block
(generator.py:437-493).  The following signature block is not modelled
here because the source raises before reaching it (see
`generateFallbackCoverLetter`). -/
def fallbackTail (cfg : Config) (resume : ResumeInfo)
    (vacancyTitle companyName : PyStr) (desc : Option PyStr) : List PyStr :=
  let rel := relevantSkills resume.skills desc
  let expParts :=
    (if !resume.title.isEmpty then [pstr "Работаю на позиции " ++ resume.title] else []) ++
    (if !rel.isEmpty then [pstr "мой стек: " ++ pyJoin (pstr ", ") (rel.take 4)] else [])
  let aboutPart : List PyStr :=
    if !resume.about.isEmpty then
      let ac := cleanAboutText resume.about
      if !ac.isEmpty then
        let sents := aboutSentences (pySplitOn (pstr ". ") ac) 0
        if !sents.isEmpty then [pyJoin (pstr " ") sents] else []
      else []
    else []
  [pstr "Меня заинтересовала вакансия " ++ vacancyTitle ++
     pstr " в вашей компании " ++ companyName ++ pstr "."] ++
  (if !expParts.isEmpty then [pyJoin (pstr ". ") expParts ++ pstr "."] else []) ++
  aboutPart ++
  [pstr "Готов обсудить детали и ответить на ваши вопросы."] ++
  (if !cfg.auth.telegram.isEmpty then [[], pstr "Telegram: @" ++ cfg.auth.telegram] else [])

/-- generateFallbackCoverLetter embeds
`generator.generate_fallback_cover_letter`.  The parts of the template
letter are assembled (greeting, interest, stack, about excerpt,
closing, optional Telegram line — generator.py:437-493), but the
signature block then reads `cfg.auth.name` (generator.py:496), an
attribute `AuthConfig` does not define, so every call raises
AttributeError before `"\n".join(parts)` (generator.py:506) is
reached and no letter is ever returned. -/
def generateFallbackCoverLetter (cfg : Config) (resume : ResumeInfo)
    (vacancyTitle companyName : PyStr) (desc : Option PyStr) : PyResult :=
  let _parts : List PyStr :=
    pstr "Добрый день!" :: fallbackTail cfg resume vacancyTitle companyName desc
  .raised attributeErrorName

/-- AiOutcome is the outcome of awaiting
`generator.generate_ai_cover_letter`: a returned `Optional[str]`, or an
uncaught exception. -/
inductive AiOutcome where
  | ok (letter : Option PyStr)
  | raised (msg : PyStr)
deriving DecidableEq

/-- generateAiCoverLetter embeds `generator.generate_ai_cover_letter`:
it returns None when AI generation is disabled in the passed config or
httpx is not importable; otherwise it executes
`from hh_bot.ai_generator.models import AIProvider` (generator.py:93),
which raises ImportError because models.py defines no `AIProvider`, so
the provider-routing code below it is unreachable and the function can
never return a letter. -/
def generateAiCoverLetter (aiEnabled hasHttpx : Bool) : AiOutcome :=
  if !aiEnabled then .ok none
  else if !hasHttpx then .ok none
  else .raised importErrorAIProvider

/-- generateCoverLetter embeds `resume_parser.generate_cover_letter`.
When `use_ai_cover_letter` is set it awaits the AI generator (passing
`cfg.cover_letter.ai.enabled` as the enabled flag, as the source does
when building `ai_config`); an exception propagates, a truthy letter
would be returned as is (the source's `if ai_letter:` — unreachable on
this code base, kept for shape), and otherwise the deterministic
template generator runs, called without the description argument. -/
def generateCoverLetter (cfg : Config) (resume : ResumeInfo)
    (vacancyTitle companyName : PyStr) (_desc : Option PyStr)
    (hasHttpx : Bool) : PyResult :=
  if useAiCoverLetter cfg then
    match generateAiCoverLetter cfg.cover_letter.ai.enabled hasHttpx with
    | .raised e => .raised e
    | .ok (some s) =>
      if s.isEmpty then generateFallbackCoverLetter cfg resume vacancyTitle companyName none
      else .ok s
    | .ok none => generateFallbackCoverLetter cfg resume vacancyTitle companyName none
  else generateFallbackCoverLetter cfg resume vacancyTitle companyName none

/-! Section: OpenRouter cascade: generator._generate_with_openrouter -/

/-- ORResp models the outcome of one `client.post` call: an HTTP
response with status and the extracted `choices[0].message.content`
(`none` when the payload is malformed), or a transport-level
exception. -/
inductive ORResp where
  | resp (status : Nat) (content : Option PyStr)
  | transportFail
deriving DecidableEq

/-- fallbackModels is the hardcoded fallback list of
`_generate_with_openrouter` (the values of the `AIModel` members
`MISTRAL_7B_FREE`, `LLAMA_3_1_8B_FREE`, `QWEN_2_5_7B_FREE`,
`GEMMA_2_9B_FREE`). -/
def fallbackModels : List PyStr :=
  [pstr "mistralai/mistral-7b-instruct:free",
   pstr "meta-llama/llama-3.1-8b-instruct:free",
   pstr "qwen/qwen-2.5-7b-instruct:free",
   pstr "google/gemma-2-9b-it:free"]

/-- isRetry decides whether the primary response triggers the fallback
loop: HTTP status 429 or 404 only. -/
def isRetry : ORResp → Bool
  | .resp st _ => st == 429 || st == 404
  | .transportFail => false

/-- orFallbackLoop embeds the `for fallback_model in fallback_models`
loop: skip entries equal to the primary model, call the rest in order,
break on status 200; a transport exception aborts the whole attempt.
It returns the response the loop leaves in `response` together with the
list of models actually called. -/
def orFallbackLoop (oracle : PyStr → ORResp) (primary : PyStr) :
    List PyStr → ORResp → ORResp × List PyStr
  | [], last => (last, [])
  | m :: ms, last =>
    if m == primary then orFallbackLoop oracle primary ms last
    else
      match oracle m with
      | .transportFail => (.transportFail, [m])
      | .resp st c =>
        if st == 200 then (.resp st c, [m])
        else
          let r := orFallbackLoop oracle primary ms (.resp st c)
          (r.1, m :: r.2)

/-- orFinish embeds the tail of `_generate_with_openrouter` after the
fallback loop: `raise_for_status` (any status ≥ 400 ends in the
exception handler and returns None), content extraction (absent
`choices` returns None), and post-processing of a successful payload —
whose AttributeError (see `ensureLetterContacts`) is swallowed by the
broad `except Exception` handler at generator.py:216-220, which
returns None, so even a status-200 payload yields no letter. -/
def orFinish (cfg : Config) (fin : ORResp) (calls : List PyStr) :
    Option PyStr × List PyStr :=
  match fin with
  | .transportFail => (none, calls)
  | .resp st2 c2 =>
    if 400 ≤ st2 then (none, calls)
    else
      match c2 with
      | none => (none, calls)
      | some content =>
        match postProcessOR cfg (pyStrip content) with
        | .ok letter => (some letter, calls)
        | .raised _ => (none, calls)

/-- openrouterGenerate embeds `_generate_with_openrouter` as a function
of the response oracle: call the configured primary model; on status
429/404 run the fallback loop; then finish with `orFinish`.  The second
component is the list of models called, in call order. -/
def openrouterGenerate (cfg : Config) (oracle : PyStr → ORResp) :
    Option PyStr × List PyStr :=
  let primary := cfg.cover_letter.ai.model
  match oracle primary with
  | .transportFail => (none, [primary])
  | .resp st c =>
    let fb :=
      if st == 429 || st == 404 then
        orFallbackLoop oracle primary fallbackModels (.resp st c)
      else (.resp st c, [])
    orFinish cfg fb.1 (primary :: fb.2)

/-! Section: Apply flow and session runner:
src/hh_bot/scraper/apply.py, src/hh_bot/bot/runner.py -/

/-- ModalPage carries the page observations `_handle_response_modal`
branches on (the location-warning and photo modals and the resume /
letter filling mutate the page but do not change the control flow
captured here). -/
structure ModalPage where
  employer_questions : Bool
  has_submit : Bool
  success_marker : Bool
  error_marker : Option PyStr
deriving DecidableEq

/-- ModalResult is the outcome of `_handle_response_modal`: a normal
return value, or a raised `ApplyError` with its message. -/
inductive ModalResult where
  | completed (success : Bool)
  | raised (msg : PyStr)
deriving DecidableEq

/-- handleResponseModal embeds `_handle_response_modal`: skip listings
with employer questions when configured, raise `ApplyError` when the
submit control is missing, report success on a success marker or a
silently closed modal, raise on an explicit error marker. -/
def handleResponseModal (cfg : Config) (page : ModalPage) : ModalResult :=
  if page.employer_questions && cfg.filters.skip_with_tests then .completed false
  else if !page.has_submit then .raised (pstr "Submit button not found in modal")
  else if page.success_marker then .completed true
  else
    match page.error_marker with
    | some e => .raised (pstr "Apply error in modal: " ++ e)
    | none => .completed true

/-- SessionStats models `runner.SessionStats`. -/
structure SessionStats where
  applied : Nat
  skipped : Nat
  errors : Nat
  skip_reasons : List (PyStr × Nat)
deriving DecidableEq

/-- statsZero is a fresh `SessionStats`. -/
def statsZero : SessionStats := ⟨0, 0, 0, []⟩

/-- histIncr models
`stats.skip_reasons[r] = stats.skip_reasons.get(r, 0) + 1`. -/
def histIncr (h : List (PyStr × Nat)) (r : PyStr) : List (PyStr × Nat) :=
  if h.any (fun p => p.1 == r) then
    h.map fun p => if p.1 == r then (p.1, p.2 + 1) else p
  else h ++ [(r, 1)]

/-- FetchOutcome is the result of `fetch_vacancy_details`: details, or
any exception. -/
inductive FetchOutcome where
  | ok (d : VacancyDetails)
  | fetchError
deriving DecidableEq

/-- ApplyOutcome is the result of `apply_to_vacancy` as the runner sees
it: True, False, a raised `ApplyError`, or any other exception. -/
inductive ApplyOutcome where
  | success
  | failedGraceful
  | applyErr (msg : PyStr)
  | unexpectedErr
deriving DecidableEq

/-- applyOutcomeOf lifts a modal-handler result to the outcome the
runner observes when the modal path was taken. -/
def applyOutcomeOf : ModalResult → ApplyOutcome
  | .raised m => .applyErr m
  | .completed true => .success
  | .completed false => .failedGraceful

/-- processCard embeds one iteration of the card loop of
`runner.run_session` (lines 103-189): quick filter (writing a skip
record except for "already_seen"), detail fetch, the already-applied
re-check, deep filter, then the apply attempt with its four outcomes.
Pacing sleeps and the session-level limit checks are outside the
per-card step. -/
def processCard (cfg : Config) (db : StateDB) (stats : SessionStats)
    (card : VacancyCard) (fetch : FetchOutcome) (applyRes : ApplyOutcome)
    (now : PyStr) : StateDB × SessionStats :=
  let qf := quickFilter cfg db card
  if qf.skip then
    let stats :=
      { stats with
        skipped := stats.skipped + 1
        skip_reasons := histIncr stats.skip_reasons qf.reason }
    if qf.reason ≠ pstr "already_seen" then
      (markSkipped db card.vacancy_id card.title card.employer card.url qf.reason now,
       stats)
    else (db, stats)
  else
    match fetch with
    | .fetchError => (db, { stats with errors := stats.errors + 1 })
    | .ok details =>
      if details.already_applied then
        (markSkipped db card.vacancy_id details.title details.employer card.url
           (pstr "already_applied") now,
         { stats with
           skipped := stats.skipped + 1
           skip_reasons := histIncr stats.skip_reasons (pstr "already_applied") })
      else
        let df := deepFilter cfg details
        if df.skip then
          (markSkipped db card.vacancy_id details.title details.employer card.url
             df.reason now,
           { stats with
             skipped := stats.skipped + 1
             skip_reasons := histIncr stats.skip_reasons df.reason })
        else
          match applyRes with
          | .success =>
            (markApplied db card.vacancy_id details.title details.employer card.url now,
             { stats with applied := stats.applied + 1 })
          | .failedGraceful =>
            (db,
             { stats with
               skipped := stats.skipped + 1
               skip_reasons := histIncr stats.skip_reasons (pstr "apply_failed") })
          | .applyErr _ => (db, { stats with errors := stats.errors + 1 })
          | .unexpectedErr => (db, { stats with errors := stats.errors + 1 })

/-! Section: Helper lemmas about the ledger tables -/

theorem find?_upsert_self {α : Type} (id : PyStr) (row : α)
    (l : List (PyStr × α)) :
    (upsertRow id row l).find? (fun p => p.1 == id) = some (id, row) := by
  unfold upsertRow
  induction l with
  | nil => simp [List.find?]
  | cons x xs ih =>
    by_cases hx : x.1 == id
    · simp [List.filter, hx, ih]
    · simp only [List.filter, hx]
      simp only [Bool.not_false, List.cons_append, List.find?]
      simp [hx, ih]

theorem countKey_upsert_self {α : Type} (id : PyStr) (row : α)
    (l : List (PyStr × α)) :
    countKey (upsertRow id row l) id = 1 := by
  unfold countKey upsertRow
  induction l with
  | nil => simp [List.filter]
  | cons x xs ih =>
    by_cases hx : x.1 == id
    · simp [List.filter, hx, ih]
    · simp [List.filter, hx, ih]

theorem filter_key_of_filter_ne {α : Type} (id id2 : PyStr)
    (l : List (PyStr × α)) (h : ¬ id2 = id) :
    (l.filter fun p => !(p.1 == id)).filter (fun p => p.1 == id2)
      = l.filter (fun p => p.1 == id2) := by
  induction l with
  | nil => rfl
  | cons x xs ih =>
    by_cases hx : x.1 == id
    · have hx2 : (x.1 == id2) = false := by
        have hxe : x.1 = id := eq_of_beq hx
        simp only [beq_eq_false_iff_ne, ne_eq, hxe]
        exact fun hc => h hc.symm
      simp [List.filter, hx, hx2, ih]
    · by_cases hy : x.1 == id2
      · simp [List.filter, hx, hy, ih]
      · simp [List.filter, hx, hy, ih]

theorem countKey_upsert_other {α : Type} (id id2 : PyStr) (row : α)
    (l : List (PyStr × α)) (h : ¬ id2 = id) :
    countKey (upsertRow id row l) id2 = countKey l id2 := by
  unfold countKey upsertRow
  have hid : (id == id2) = false := by
    simp only [beq_eq_false_iff_ne, ne_eq]
    exact fun hc => h hc.symm
  rw [List.filter_append, filter_key_of_filter_ne id id2 l h]
  simp [List.filter, hid]

theorem countKey_upsert_le_one {α : Type} (id id2 : PyStr) (row : α)
    (l : List (PyStr × α)) (h : countKey l id2 ≤ 1) :
    countKey (upsertRow id row l) id2 ≤ 1 := by
  by_cases he : id2 = id
  · subst he
    rw [countKey_upsert_self]
  · rw [countKey_upsert_other id id2 row l he]
    exact h

/-- tablesBounded states the per-table one-row-per-id invariant. -/
def tablesBounded (db : StateDB) : Prop :=
  ∀ id : PyStr, countApplied db id ≤ 1 ∧ countSkipped db id ≤ 1

theorem applyOp_preserves_bounded (db : StateDB) (op : LOp)
    (h : tablesBounded db) : tablesBounded (applyOp db op) := by
  intro id
  cases op with
  | markA i t e u now =>
    refine ⟨?_, ?_⟩
    · exact countKey_upsert_le_one i id _ db.conn.applied (h id).1
    · exact (h id).2
  | markS i t e u r now =>
    refine ⟨?_, ?_⟩
    · exact (h id).1
    · exact countKey_upsert_le_one i id _ db.conn.skipped (h id).2
  | clear => exact ⟨Nat.zero_le 1, Nat.zero_le 1⟩

theorem foldl_preserves_bounded (ops : List LOp) :
    ∀ db : StateDB, tablesBounded db → tablesBounded (ops.foldl applyOp db) := by
  induction ops with
  | nil => intro db h; exact h
  | cons op rest ih =>
    intro db h
    exact ih (applyOp db op) (applyOp_preserves_bounded db op h)

/-! Section: C1: record uniqueness across the applied and skipped sets -/

/-- dbC1 is the state after `mark_skipped("12345", ...)` followed by
`mark_applied("12345", ...)` on a fresh store. -/
def dbC1 : StateDB :=
  markApplied
    (markSkipped emptyDB (pstr "12345") (pstr "Python junior") (pstr "Acme")
      (pstr "https://hh.ru/vacancy/12345") (pstr "blocked_keyword:junior")
      (pstr "2024-01-01T00:00:00"))
    (pstr "12345") (pstr "Python junior") (pstr "Acme")
    (pstr "https://hh.ru/vacancy/12345") (pstr "2024-01-02T00:00:00")

/-- C1 counterexample: after markSkipped then markApplied for the same
id, the store holds two records for that id — one in each table — and
`get_stats` counts the id both under total_applied and total_skipped,
so the id is simultaneously counted as applied and as skipped even
though hasApplied is true. -/
theorem C1_counterexample :
    countApplied dbC1 (pstr "12345") + countSkipped dbC1 (pstr "12345") = 2
    ∧ hasApplied dbC1 (pstr "12345") = true
    ∧ totalApplied dbC1 = 1 ∧ totalSkipped dbC1 = 1 := by
  decide

/-- C1 (amended): each of the two tables is keyed by id with upsert
semantics, so every reachable ledger state holds at most one applied
record and at most one skip record per id; markApplied after
markSkipped makes hasApplied true, but the earlier skip record is not
deleted, so an id can hold one record in each set at the same time. -/
theorem C1_amended :
    (∀ (ops : List LOp) (id : PyStr),
        countApplied (runOps ops) id ≤ 1 ∧ countSkipped (runOps ops) id ≤ 1)
    ∧ (∀ (db : StateDB) (id t e u now : PyStr),
        hasApplied (markApplied db id t e u now) id = true) := by
  constructor
  · intro ops id
    have h0 : tablesBounded emptyDB := by
      intro i; exact ⟨Nat.zero_le 1, Nat.zero_le 1⟩
    exact foldl_preserves_bounded ops emptyDB h0 id
  · intro db id t e u now
    unfold hasApplied markApplied
    simp only
    rw [find?_upsert_self]
    rfl

/-! Section: C2: synchronous commit of every mutating call -/

/-- C2: each mutating ledger call commits before returning — the
durable (`disk`) state equals the connection (`conn`) state as soon as
the call returns — and therefore a restart (crash immediately after the
call) still observes the applied / skipped decision, and clearAll
durably empties both sets. -/
theorem C2_sync_commit :
    ∀ (db : StateDB) (id t e u r now : PyStr),
      (markApplied db id t e u now).disk = (markApplied db id t e u now).conn
      ∧ (markSkipped db id t e u r now).disk = (markSkipped db id t e u r now).conn
      ∧ (clearAll db).disk = (clearAll db).conn
      ∧ hasApplied (restart (markApplied db id t e u now)) id = true
      ∧ hasSeen (restart (markSkipped db id t e u r now)) id = true
      ∧ restart (clearAll db) = clearAll db := by
  intro db id t e u r now
  refine ⟨rfl, rfl, rfl, ?_, ?_, rfl⟩
  · unfold hasApplied restart markApplied
    simp only
    rw [find?_upsert_self]
    rfl
  · unfold hasSeen restart markSkipped hasApplied
    simp only
    rw [find?_upsert_self]
    simp

/-! Section: C3, C4: the two filter stages -/

theorem firstKeywordHit_eq_find (hay : PyStr) (l : List PyStr) :
    firstKeywordHit hay l = l.find? (fun kw => containsSub hay (pyLower kw)) := by
  induction l with
  | nil => rfl
  | cons kw rest ih =>
    by_cases hkw : containsSub hay (pyLower kw)
    · simp [firstKeywordHit, List.find?, hkw]
    · simp [firstKeywordHit, List.find?, hkw, ih]

/-- cardW is the quick-filter scenario summary
`{id:"12345", title:"Python junior", employer:"Acme"}`. -/
def cardW : VacancyCard :=
  ⟨pstr "12345", pstr "Python junior", pstr "Acme",
   pstr "https://hh.ru/vacancy/12345", false⟩

/-- C3: the quick filter is exactly the ordered cascade of the
specification — already-seen ids first, then denylisted title keywords,
then denylisted employers, first applicable verdict winning — and for
the scenario summary with empty denylists on a fresh ledger it returns
skip = false. -/
theorem C3_quick_filter :
    (∀ (cfg : Config) (db : StateDB) (card : VacancyCard),
        quickFilter cfg db card = quickFilterSpec cfg db card)
    ∧ quickFilter configDefault emptyDB cardW = ⟨false, []⟩ := by
  constructor
  · intro cfg db card
    unfold quickFilter quickFilterSpec
    rw [firstKeywordHit_eq_find, firstKeywordHit_eq_find]
  · decide

/-- detailC4 is the deep-filter scenario detail with
`alreadyApplied = true` (every other flag off). -/
def detailC4 : VacancyDetails :=
  ⟨pstr "12345", pstr "Python junior", pstr "Acme",
   pstr "https://hh.ru/vacancy/12345", [], false, false, true, false, false⟩

/-- C4: the deep filter returns the first applicable verdict of the
ordered rule table already_applied, archived, external_link (when
external listings are disallowed), has_test (when tested listings are
skipped), letter_required_no_template (when letters are disabled or the
configured template is blank); a detail with alreadyApplied = true is
skipped with reason "already_applied". -/
theorem C4_deep_filter :
    (∀ (cfg : Config) (d : VacancyDetails),
        deepFilter cfg d = firstVerdict (deepRules cfg d))
    ∧ deepFilter configDefault detailC4 = ⟨true, pstr "already_applied"⟩ := by
  constructor
  · intro cfg d
    unfold deepFilter deepRules firstVerdict
    rfl
  · decide

/-! Section: C5: the OpenRouter model cascade -/

theorem orFinish_snd (cfg : Config) (fin : ORResp) (calls : List PyStr) :
    (orFinish cfg fin calls).2 = calls := by
  cases fin with
  | transportFail => rfl
  | resp st c =>
    by_cases h : 400 ≤ st
    · simp [orFinish, h]
    · cases c with
      | none => simp [orFinish, h]
      | some content =>
        cases hp : postProcessOR cfg (pyStrip content) <;> simp [orFinish, h, hp]

theorem orFallbackLoop_sublist (oracle : PyStr → ORResp) (primary : PyStr) :
    ∀ (ms : List PyStr) (last : ORResp),
      (orFallbackLoop oracle primary ms last).2.Sublist
        (ms.filter fun m => !(m == primary)) := by
  intro ms
  induction ms with
  | nil => intro last; simp [orFallbackLoop]
  | cons m rest ih =>
    intro last
    by_cases hm : (m == primary) = true
    · simpa [orFallbackLoop, hm, List.filter] using ih last
    · have hm2 : (m == primary) = false := by
        simpa using hm
      simp only [orFallbackLoop, hm2, Bool.false_eq_true, if_neg, not_false_eq_true,
        List.filter, Bool.not_false]
      cases horacle : oracle m with
      | transportFail =>
        exact List.Sublist.cons₂ m (List.nil_sublist _)
      | resp st c =>
        by_cases h200 : (st == 200) = true
        · simp only [h200, if_pos]
          exact List.Sublist.cons₂ m (List.nil_sublist _)
        · simp only [h200, Bool.false_eq_true, if_neg, not_false_eq_true]
          exact List.Sublist.cons₂ m (ih (.resp st c))

theorem openrouterGenerate_calls (cfg : Config) (oracle : PyStr → ORResp) :
    (openrouterGenerate cfg oracle).2.head? = some cfg.cover_letter.ai.model
    ∧ (openrouterGenerate cfg oracle).2.tail.Sublist
        (fallbackModels.filter fun m => !(m == cfg.cover_letter.ai.model)) := by
  unfold openrouterGenerate
  cases horacle : oracle cfg.cover_letter.ai.model with
  | transportFail =>
    simp only [horacle]
    exact ⟨rfl, List.nil_sublist _⟩
  | resp st c =>
    simp only [horacle]
    by_cases hcond : (st == 429 || st == 404) = true
    · simp only [hcond, if_pos, orFinish_snd]
      exact ⟨rfl, orFallbackLoop_sublist oracle _ fallbackModels (.resp st c)⟩
    · simp only [hcond, Bool.false_eq_true, if_neg, not_false_eq_true, orFinish_snd]
      exact ⟨rfl, List.nil_sublist _⟩

/-- C5 (amended): the fallback loop runs only when the primary call
returns HTTP status 429 or 404; on every other failure (any other
non-success status, malformed payload, or transport error) no fallback
model is attempted and the call list is just the primary model.  When
the loop does run it walks the fixed fallback list in order, skipping
entries equal to the primary model and stopping at the first status
200, so a cascade calls the primary plus at most the N fallback models
(≤ 1 + N calls) and never calls the same model twice. -/
theorem C5_amended (cfg : Config) (oracle : PyStr → ORResp)
    (h : isRetry (oracle cfg.cover_letter.ai.model) = false) :
    (openrouterGenerate cfg oracle).2 = [cfg.cover_letter.ai.model]
    ∧ ∀ o2 : PyStr → ORResp,
        (openrouterGenerate cfg o2).2.Nodup
        ∧ (openrouterGenerate cfg o2).2.length ≤ 1 + fallbackModels.length
        ∧ (openrouterGenerate cfg o2).2.head? = some cfg.cover_letter.ai.model
        ∧ (openrouterGenerate cfg o2).2.tail.Sublist
            (fallbackModels.filter fun m => !(m == cfg.cover_letter.ai.model)) := by
  constructor
  · unfold openrouterGenerate
    cases horacle : oracle cfg.cover_letter.ai.model with
    | transportFail => simp only [horacle]
    | resp st c =>
      rw [horacle] at h
      simp only [isRetry] at h
      simp only [horacle, h, Bool.false_eq_true, if_neg, not_false_eq_true, orFinish_snd]
  · intro o2
    have hmain := openrouterGenerate_calls cfg o2
    have hnodupF : (fallbackModels.filter
        fun m => !(m == cfg.cover_letter.ai.model)).Nodup := by
      refine List.Nodup.filter _ ?_
      decide
    cases hcalls : (openrouterGenerate cfg o2).2 with
    | nil =>
      rw [hcalls] at hmain
      exact absurd hmain.1 (by simp)
    | cons hd tl =>
      rw [hcalls] at hmain
      have hhd : hd = cfg.cover_letter.ai.model := by
        have := hmain.1
        simpa using this
      have htl : tl.Sublist (fallbackModels.filter
          fun m => !(m == cfg.cover_letter.ai.model)) := hmain.2
      refine ⟨?_, ?_, hmain.1, hmain.2⟩
      · rw [List.nodup_cons]
        constructor
        · intro hmem
          have hmemF := htl.subset hmem
          rw [List.mem_filter] at hmemF
          rw [hhd] at hmemF
          simp at hmemF
        · exact List.Nodup.sublist htl hnodupF
      · have h1 : tl.length ≤ (fallbackModels.filter
            fun m => !(m == cfg.cover_letter.ai.model)).length := htl.length_le
        have h2 : (fallbackModels.filter
            fun m => !(m == cfg.cover_letter.ai.model)).length
              ≤ fallbackModels.length := List.length_filter_le _ _
        simp only [List.length_cons]
        omega

/-- C5 counterexample: with the default primary model, a primary call
failing with HTTP 500 (a non-success status, hence "any failure" in the
claim) triggers no fallback attempt at all — the call list is just the
primary and in particular the first fallback model is never tried — and
a primary 429 makes the cascade call 1 + N models, exceeding the
claimed bound of N calls for a fallback list of N models. -/
theorem C5_counterexample :
    (openrouterGenerate configDefault (fun _ => .resp 500 none)).2
      = [pstr "deepseek/deepseek-chat:free"]
    ∧ ¬ (pstr "mistralai/mistral-7b-instruct:free"
          ∈ (openrouterGenerate configDefault (fun _ => .resp 500 none)).2)
    ∧ (openrouterGenerate configDefault (fun _ => .resp 500 none)).1 = none
    ∧ (openrouterGenerate configDefault (fun _ => .resp 429 none)).2.length
        = 1 + fallbackModels.length := by
  decide

/-- C5 witness: the amended theorem applied at the default
configuration with a primary failing at 500 (no fallback calls) and at
429 (full but duplicate-free cascade). -/
theorem C5_amended_witness :
    (openrouterGenerate configDefault (fun _ => .resp 500 none)).2
      = [configDefault.cover_letter.ai.model]
    ∧ (openrouterGenerate configDefault (fun _ => .resp 429 none)).2.Nodup
    ∧ (openrouterGenerate configDefault (fun _ => .resp 429 none)).2.length
        ≤ 1 + fallbackModels.length :=
  ⟨(C5_amended configDefault (fun _ => .resp 500 none) (by decide)).1,
   ((C5_amended configDefault (fun _ => .resp 500 none) (by decide)).2
      (fun _ => .resp 429 none)).1,
   ((C5_amended configDefault (fun _ => .resp 500 none) (by decide)).2
      (fun _ => .resp 429 none)).2.1⟩

/-! Section: C6: the generate contract (never raises, non-empty text) -/

theorem generateFallbackCoverLetter_raises (cfg : Config) (resume : ResumeInfo)
    (vt cn : PyStr) (d : Option PyStr) :
    generateFallbackCoverLetter cfg resume vt cn d = .raised attributeErrorName := rfl

/-- resumeW is an ordinary parsed resume. -/
def resumeW : ResumeInfo := ⟨pstr "Python Developer", [], [], [], []⟩

/-- cfgC6 enables cover letters with AI generation off, so
`generate_cover_letter` goes straight to the template fallback. -/
def cfgC6 : Config :=
  { configDefault with
    cover_letter := { configDefault.cover_letter with enabled := true } }

/-- cfgAi enables cover letters and AI generation (empty auth). -/
def cfgAi : Config :=
  { configDefault with
    cover_letter :=
      { configDefault.cover_letter with
        enabled := true
        ai := ⟨true, [], pstr "deepseek/deepseek-chat:free"⟩ } }

/-- C6 (code evaluated at the failing inputs): `generate_cover_letter`
raises on every call instead of returning text.  With cover letters
enabled and AI off it reaches the template fallback, which raises
AttributeError reading the nonexistent `cfg.auth.name`
(generator.py:496); with AI enabled and httpx importable the AI
generator raises ImportError at generator.py:93 (models.py defines no
`AIProvider`); and universally, every configuration and input ends in
one of these two uncaught exceptions, so the contract "never raises;
always returns non-empty text" is met by no execution. -/
theorem C6_generate_raises :
    generateCoverLetter cfgC6 resumeW (pstr "Python junior") (pstr "Acme") none false
      = .raised attributeErrorName
    ∧ generateCoverLetter cfgAi resumeW (pstr "Python junior") (pstr "Acme") none true
      = .raised importErrorAIProvider
    ∧ (∀ (cfg : Config) (resume : ResumeInfo) (vt cn : PyStr) (d : Option PyStr)
        (hasHttpx : Bool),
        generateCoverLetter cfg resume vt cn d hasHttpx = .raised attributeErrorName
        ∨ generateCoverLetter cfg resume vt cn d hasHttpx
            = .raised importErrorAIProvider) := by
  refine ⟨by decide, by decide, ?_⟩
  intro cfg resume vt cn d hasHttpx
  unfold generateCoverLetter
  by_cases hai : useAiCoverLetter cfg = true
  · simp only [hai, if_pos]
    by_cases hen : cfg.cover_letter.ai.enabled = true
    · by_cases hx : hasHttpx = true
      · simp [generateAiCoverLetter, hen, hx]
      · simp only [Bool.not_eq_true] at hx
        simp [generateAiCoverLetter, hen, hx, generateFallbackCoverLetter_raises]
    · simp only [Bool.not_eq_true] at hen
      simp [generateAiCoverLetter, hen, generateFallbackCoverLetter_raises]
  · simp only [hai, Bool.false_eq_true, if_neg, not_false_eq_true]
    exact Or.inl (generateFallbackCoverLetter_raises cfg resume vt cn none)

/-! Section: C8: boundary-aware truncation -/

theorem pyStrip_length_le (s : PyStr) : (pyStrip s).length ≤ s.length := by
  unfold pyStrip
  calc ((s.dropWhile isPySpace).reverse.dropWhile isPySpace).reverse.length
      = ((s.dropWhile isPySpace).reverse.dropWhile isPySpace).length := by
        rw [List.length_reverse]
    _ ≤ (s.dropWhile isPySpace).reverse.length :=
        (List.dropWhile_suffix isPySpace).sublist.length_le
    _ = (s.dropWhile isPySpace).length := by rw [List.length_reverse]
    _ ≤ s.length := (List.dropWhile_suffix isPySpace).sublist.length_le

theorem truncAtSepGo_length_le (B : Nat) :
    ∀ (seps : List PyStr) (s : PyStr), (truncAtSepGo s B seps).length ≤ s.length := by
  intro seps
  induction seps with
  | nil => intro s; exact Nat.le_refl _
  | cons sp rest ih =>
    intro s
    unfold truncAtSepGo
    cases hf : rfindSep sp s with
    | none => exact ih s
    | some j =>
      by_cases hj : 7 * B ≤ 10 * j
      · simp only [hj, if_pos]
        rw [List.length_take]
        exact Nat.min_le_right _ _
      · simp only [hj, if_neg, not_false_eq_true]
        exact ih s

theorem truncCore_length_le (r : PyStr) (B : Nat) : (truncCore r B).length ≤ B := by
  unfold truncCore
  by_cases h : B < r.length
  · simp only [h, if_pos]
    calc (pyStrip (truncAtSep (r.take B) B)).length
        ≤ (truncAtSep (r.take B) B).length := pyStrip_length_le _
      _ ≤ (r.take B).length := truncAtSepGo_length_le B sepList _
      _ ≤ B := by rw [List.length_take]; exact Nat.min_le_left _ _
  · simp only [h, if_neg, not_false_eq_true]
    omega

theorem terminalDot_length_le (r : PyStr) :
    (terminalDot r).length ≤ r.length + 1 := by
  unfold terminalDot
  by_cases h : endsTerminal r = true
  · simp [h]
  · simp only [h, Bool.false_eq_true, if_neg, not_false_eq_true]
    simp

theorem endsTerminal_terminalDot (r : PyStr) :
    endsTerminal (terminalDot r) = true := by
  unfold terminalDot
  by_cases h : endsTerminal r = true
  · simp [h]
  · simp only [h, Bool.false_eq_true, if_neg, not_false_eq_true]
    simp [endsTerminal, List.getLast?_concat]

theorem truncateLetter_length_le (t : PyStr) (B P : Nat) :
    (truncateLetter t B P).length ≤ B + 1 := by
  unfold truncateLetter
  calc (terminalDot (truncCore _ B)).length
      ≤ (truncCore (pyJoin (pstr "\n\n") (capParagraphs (paragraphsOf t) P)) B).length + 1 :=
        terminalDot_length_le _
    _ ≤ B + 1 := Nat.add_le_add_right (truncCore_length_le _ B) 1

theorem startsWithPy_head? (l : PyStr) (c : Char) (p : PyStr)
    (h : startsWithPy l (c :: p) = true) : l.head? = some c := by
  cases l with
  | nil => simp [startsWithPy] at h
  | cons d ds =>
    simp only [startsWithPy, Bool.and_eq_true, beq_iff_eq] at h
    rw [h.1]
    rfl

theorem rfindSep_spec (sep : PyStr) :
    ∀ (s : PyStr) (j : Nat), rfindSep sep s = some j →
      j < s.length ∧ startsWithPy (s.drop j) sep = true := by
  intro s
  induction s with
  | nil => intro j h; simp [rfindSep] at h
  | cons c cs ih =>
    intro j h
    unfold rfindSep at h
    cases hrec : rfindSep sep cs with
    | some j0 =>
      rw [hrec] at h
      injection h with h
      subst h
      obtain ⟨h1, h2⟩ := ih j0 hrec
      exact ⟨Nat.succ_lt_succ h1, h2⟩
    | none =>
      rw [hrec] at h
      by_cases hst : startsWithPy (c :: cs) sep = true
      · simp only [hst, if_pos] at h
        injection h with h
        subst h
        exact ⟨Nat.succ_pos _, hst⟩
      · simp [hst] at h

theorem truncAtSepGo_spec (B : Nat) :
    ∀ (seps : List PyStr) (s : PyStr),
      (∀ sp ∈ seps, ∃ c p, sp = c :: p ∧ (c = '.' ∨ c = '!' ∨ c = '?')) →
      truncAtSepGo s B seps = s
      ∨ ∃ j, 7 * B ≤ 10 * j ∧ truncAtSepGo s B seps = s.take (j + 1)
          ∧ ∃ c, s[j]? = some c ∧ (c = '.' ∨ c = '!' ∨ c = '?') := by
  intro seps
  induction seps with
  | nil => intro s _; exact Or.inl rfl
  | cons sp rest ih =>
    intro s hseps
    obtain ⟨c, p, hspc, hpunct⟩ := hseps sp (List.mem_cons_self sp rest)
    have hrest : ∀ sp2 ∈ rest, ∃ c p, sp2 = c :: p ∧ (c = '.' ∨ c = '!' ∨ c = '?') :=
      fun sp2 hm => hseps sp2 (List.mem_cons_of_mem sp hm)
    unfold truncAtSepGo
    cases hf : rfindSep sp s with
    | none => exact ih s hrest
    | some j =>
      by_cases hj : 7 * B ≤ 10 * j
      · simp only [hj, if_pos]
        refine Or.inr ⟨j, hj, rfl, c, ?_, hpunct⟩
        have hspec := rfindSep_spec sp s j hf
        have hhead : (s.drop j).head? = some c := by
          apply startsWithPy_head? (s.drop j) c p
          rw [← hspc]
          exact hspec.2
        rw [← hhead]
        exact (List.head?_drop s j).symm
      · simp only [hj, if_neg, not_false_eq_true]
        exact ih s hrest

theorem findSub?_none_of_not_mem (c : Char) (p : PyStr) :
    ∀ l : PyStr, (∀ x ∈ l, x ≠ c) → findSub? (c :: p) l = none := by
  intro l
  induction l with
  | nil => intro _; rfl
  | cons x xs ih =>
    intro h
    have hx : (x == c) = false := by
      simp only [beq_eq_false_iff_ne, ne_eq]
      exact h x (List.mem_cons_self x xs)
    have hrec := ih fun y hy => h y (List.mem_cons_of_mem x hy)
    simp [findSub?, startsWithPy, hx, hrec]

theorem pySplitGo_of_none (pat : PyStr) (fuel : Nat) (s : PyStr)
    (h : findSub? pat s = none) : pySplitGo pat fuel s = [s] := by
  cases fuel with
  | zero => rfl
  | succ f => simp [pySplitGo, h]

theorem dropWhile_head_false (p : Char → Bool) (l : PyStr)
    (h : ∀ c, l.head? = some c → p c = false) : l.dropWhile p = l := by
  cases l with
  | nil => rfl
  | cons x xs =>
    have hx := h x rfl
    simp [List.dropWhile, hx]

theorem pyStrip_noop (l : PyStr)
    (h1 : ∀ c, l.head? = some c → isPySpace c = false)
    (h2 : ∀ c, l.reverse.head? = some c → isPySpace c = false) :
    pyStrip l = l := by
  unfold pyStrip
  rw [dropWhile_head_false isPySpace l h1, dropWhile_head_false isPySpace l.reverse h2,
    List.reverse_reverse]

theorem rfindSep_append_right (sep l2 : PyStr) (j : Nat)
    (h : rfindSep sep l2 = some j) :
    ∀ l1 : PyStr, rfindSep sep (l1 ++ l2) = some (l1.length + j) := by
  intro l1
  induction l1 with
  | nil => simpa using h
  | cons x xs ih =>
    show rfindSep sep (x :: (xs ++ l2)) = _
    unfold rfindSep
    rw [ih]
    simp only [List.length_cons]
    congr 1
    omega

/-- letter1200 is the 1200-character scenario letter: 600 characters,
a sentence boundary, then filler to 1200. -/
def letter1200 : PyStr := List.replicate 600 'a' ++ pstr ". " ++ List.replicate 598 'b'

/-- take700 is the budget-sized slice of the scenario letter. -/
def take700 : PyStr := List.replicate 600 'a' ++ ('.' :: ' ' :: List.replicate 98 'b')

/-- cut601 is the boundary cut of the scenario letter. -/
def cut601 : PyStr := List.replicate 600 'a' ++ ['.']

theorem letter1200_no_newline : ∀ x ∈ letter1200, x ≠ '\n' := by
  intro x hx
  unfold letter1200 at hx
  rcases List.mem_append.mp hx with h | h
  · rcases List.mem_append.mp h with h2 | h2
    · rw [List.eq_of_mem_replicate h2]; decide
    · have h3 : x ∈ ['.', ' '] := h2
      fin_cases h3 <;> decide
  · rw [List.eq_of_mem_replicate h]; decide

theorem letter1200_split : pySplitOn (pstr "\n\n") letter1200 = [letter1200] := by
  apply pySplitGo_of_none
  exact findSub?_none_of_not_mem '\n' ['\n'] letter1200 letter1200_no_newline

theorem letter1200_strip : pyStrip letter1200 = letter1200 := by
  apply pyStrip_noop
  · intro c hc
    have ha : letter1200.head? = some 'a' := by decide
    rw [ha] at hc
    injection hc with hc
    rw [← hc]
    decide
  · intro c hc
    have hb : letter1200.reverse.head? = some 'b' := by decide
    rw [hb] at hc
    injection hc with hc
    rw [← hc]
    decide

theorem letter1200_paragraphs : paragraphsOf letter1200 = [letter1200] := by
  unfold paragraphsOf
  rw [letter1200_split]
  simp [letter1200_strip, show letter1200.isEmpty = false by decide]

theorem letter1200_boundary : truncAtSep take700 700 = take700.take 601 := by
  unfold truncAtSep sepList truncAtSepGo
  rw [show rfindSep (pstr ". ") take700 = some 600 by decide]
  norm_num

theorem letter1200_core : truncCore letter1200 700 = cut601 := by
  unfold truncCore
  rw [show letter1200.length = 1200 by decide]
  simp only [show (700 < 1200) = True by simp, if_pos trivial]
  rw [show letter1200.take 700 = take700 by decide, letter1200_boundary,
    show take700.take 601 = cut601 by decide,
    show pyStrip cut601 = cut601 by decide]

theorem truncateLetter_letter1200 : truncateLetter letter1200 700 5 = cut601 := by
  unfold truncateLetter
  rw [letter1200_paragraphs,
    show pyJoin (pstr "\n\n") (capParagraphs [letter1200] 5) = letter1200 by
      simp [capParagraphs, pyJoin, pyJoinRest],
    letter1200_core]
  unfold terminalDot
  rw [show endsTerminal cut601 = true by decide]
  simp

/-- C8: for every text and budgets, the truncated letter is at most one
character (the appended terminal period) over the budget and always
ends with terminal punctuation; whenever the sentence-boundary search
cuts, it cuts right after a '.', '!' or '?' located at an index j with
10j ≥ 7B (i.e. no earlier than 70 percent of the budget, within the
claimed 60-70 percent band); and the 1200-character scenario letter
with budget 700 truncates to 601 characters — cut at the boundary at
index 600 ≥ 420 — ending in a period. -/
theorem C8_truncation :
    (∀ (t : PyStr) (B P : Nat),
        (truncateLetter t B P).length ≤ B + 1
        ∧ endsTerminal (truncateLetter t B P) = true)
    ∧ (∀ (s : PyStr) (B : Nat),
        truncAtSep s B = s
        ∨ ∃ j, 7 * B ≤ 10 * j ∧ truncAtSep s B = s.take (j + 1)
            ∧ ∃ c, s[j]? = some c ∧ (c = '.' ∨ c = '!' ∨ c = '?'))
    ∧ (letter1200.length = 1200
        ∧ (truncateLetter letter1200 700 5).length = 601
        ∧ endsTerminal (truncateLetter letter1200 700 5) = true
        ∧ 420 ≤ (truncateLetter letter1200 700 5).length) := by
  refine ⟨?_, ?_, ?_⟩
  · intro t B P
    exact ⟨truncateLetter_length_le t B P, by
      unfold truncateLetter; exact endsTerminal_terminalDot _⟩
  · intro s B
    apply truncAtSepGo_spec B sepList s
    intro sp hm
    fin_cases hm
    · exact ⟨'.', [' '], rfl, Or.inl rfl⟩
    · exact ⟨'!', [' '], rfl, Or.inr (Or.inl rfl)⟩
    · exact ⟨'?', [' '], rfl, Or.inr (Or.inr rfl)⟩
    · exact ⟨'.', ['\n'], rfl, Or.inl rfl⟩
    · exact ⟨'!', ['\n'], rfl, Or.inr (Or.inl rfl)⟩
    · exact ⟨'?', ['\n'], rfl, Or.inr (Or.inr rfl)⟩
  · rw [truncateLetter_letter1200]
    refine ⟨by decide, by decide, by decide, by decide⟩

/-! Section: C7: uniform post-processing of both letter paths -/

theorem ensureLetterContacts_raises (cfg : Config) (t : PyStr) :
    ensureLetterContacts cfg t = .raised attributeErrorName := rfl

theorem postProcessOR_raises (cfg : Config) (c : PyStr) :
    postProcessOR cfg c = .raised attributeErrorName := rfl

theorem orFinish_fst_none (cfg : Config) (fin : ORResp) (calls : List PyStr) :
    (orFinish cfg fin calls).1 = none := by
  cases fin with
  | transportFail => rfl
  | resp st c =>
    by_cases h : 400 ≤ st
    · simp [orFinish, h]
    · cases c with
      | none => simp [orFinish, h]
      | some content => simp [orFinish, h, postProcessOR_raises]

theorem openrouterGenerate_fst_none (cfg : Config) (oracle : PyStr → ORResp) :
    (openrouterGenerate cfg oracle).1 = none := by
  unfold openrouterGenerate
  cases horacle : oracle cfg.cover_letter.ai.model with
  | transportFail => simp [horacle]
  | resp st c =>
    simp only [horacle]
    exact orFinish_fst_none cfg _ _

/-- C7 counterexample: at a concrete input, neither path returns a
post-processed letter.  The deterministic fallback path raises
AttributeError reading the nonexistent `cfg.auth.name`
(generator.py:496) instead of returning a letter, and on the AI path a
successful status-200 payload still yields None, because the
post-processing chain itself raises inside `_ensure_letter_contacts`
(generator.py:372) and the exception is swallowed at generator.py:216.
So the claim — that for every input the fallback path returns a letter
that has passed the same post-processing as the AI path's letter — is
false here: the fallback path returns no letter at all, and the AI
path's post-processing never completes. -/
theorem C7_counterexample :
    generateFallbackCoverLetter cfgAi resumeW (pstr "Backend Developer") (pstr "Acme") none
      = .raised attributeErrorName
    ∧ (openrouterGenerate cfgAi
        (fun _ => .resp 200 (some (pstr "Добрый день! Я пишу по поводу вакансии.")))).1
      = none :=
  ⟨rfl, rfl⟩

/-- C7 (amended): the post-processing chain is invoked only on the AI
path, and on this code base no letter survives it on either path: the
deterministic template generator raises AttributeError on the
nonexistent `cfg.auth.name` before returning (so its output passes
through no post-processing), and on the AI path the pure clean and
truncation steps run but the final signature-normalization step raises
on the same missing attribute, the exception is swallowed, and the
OpenRouter cascade returns None for every oracle — it never returns a
post-processed letter. -/
theorem C7_amended :
    (∀ (cfg : Config) (resume : ResumeInfo) (vt cn : PyStr) (d : Option PyStr),
        generateFallbackCoverLetter cfg resume vt cn d = .raised attributeErrorName)
    ∧ (∀ (cfg : Config) (t : PyStr), ensureLetterContacts cfg t = .raised attributeErrorName)
    ∧ (∀ (cfg : Config) (oracle : PyStr → ORResp),
        (openrouterGenerate cfg oracle).1 = none) :=
  ⟨fun cfg resume vt cn d => generateFallbackCoverLetter_raises cfg resume vt cn d,
   fun cfg t => ensureLetterContacts_raises cfg t,
   fun cfg oracle => openrouterGenerate_fst_none cfg oracle⟩

/-! Section: C9: missing submit control -/

/-- detailsW is a detail record that passes the deep filter (all flags
off). -/
def detailsW : VacancyDetails :=
  ⟨pstr "12345", pstr "Python junior", pstr "Acme",
   pstr "https://hh.ru/vacancy/12345", [], false, false, false, false, false⟩

/-- pageC9 is a response modal without a submit control. -/
def pageC9 : ModalPage := ⟨false, false, false, none⟩

/-- C9: when the response modal has no submit control (and the
employer-questions early return does not fire), the modal handler
raises ApplyError("Submit button not found in modal"); for a listing
that passed the quick filter, the already-applied re-check and the deep
filter, the runner step with that outcome leaves the ledger exactly
unchanged — no applied or skip record is written, so the listing stays
retryable — and increments SessionStats.errors by one, leaving applied
and skipped counts untouched. -/
theorem C9_submit_missing :
    ∀ (cfg : Config) (db : StateDB) (stats : SessionStats) (card : VacancyCard)
      (details : VacancyDetails) (page : ModalPage) (now : PyStr),
      (quickFilter cfg db card).skip = false →
      details.already_applied = false →
      (deepFilter cfg details).skip = false →
      (page.employer_questions && cfg.filters.skip_with_tests) = false →
      page.has_submit = false →
      handleResponseModal cfg page = .raised (pstr "Submit button not found in modal")
      ∧ processCard cfg db stats card (.ok details)
          (applyOutcomeOf (handleResponseModal cfg page)) now
        = (db, { stats with errors := stats.errors + 1 }) := by
  intro cfg db stats card details page now hq ha hd hques hsub
  have hmodal : handleResponseModal cfg page
      = .raised (pstr "Submit button not found in modal") := by
    unfold handleResponseModal
    rw [hques, hsub]
    simp
  refine ⟨hmodal, ?_⟩
  unfold processCard
  rw [hmodal]
  simp only [hq, Bool.false_eq_true, if_neg, not_false_eq_true, ha, hd,
    applyOutcomeOf]

/-- C9 witness: the theorem at the default configuration, an empty
ledger, a fresh stats record and the concrete modal without a submit
control. -/
theorem C9_submit_missing_witness :
    handleResponseModal configDefault pageC9
      = .raised (pstr "Submit button not found in modal")
    ∧ processCard configDefault emptyDB statsZero cardW (.ok detailsW)
        (applyOutcomeOf (handleResponseModal configDefault pageC9)) (pstr "2024-01-01")
      = (emptyDB, { statsZero with errors := statsZero.errors + 1 }) :=
  C9_submit_missing configDefault emptyDB statsZero cardW detailsW pageC9
    (pstr "2024-01-01") (by decide) (by decide) (by decide) (by decide) (by decide)

/-! Section: C10: quick-skip ledger writes -/

/-- C10: whenever the quick filter says skip, the runner step counts
the skip and bumps the reason histogram, and it writes a ledger record
exactly when the reason is not "already_seen": for "already_seen" the
ledger is returned unchanged (every pre-existing record, with its
outcome, reason and timestamp, intact), while for every other reason
the skip record for the card is upserted; an upsert always leaves
exactly one skip record for that id and never touches the applied
table. -/
theorem C10_already_seen_frame :
    ∀ (cfg : Config) (db : StateDB) (stats : SessionStats) (card : VacancyCard)
      (fetch : FetchOutcome) (applyRes : ApplyOutcome) (now : PyStr),
      (quickFilter cfg db card).skip = true →
      processCard cfg db stats card fetch applyRes now
        = ((if (quickFilter cfg db card).reason = pstr "already_seen" then db
            else markSkipped db card.vacancy_id card.title card.employer card.url
              (quickFilter cfg db card).reason now),
           { stats with
             skipped := stats.skipped + 1
             skip_reasons := histIncr stats.skip_reasons (quickFilter cfg db card).reason })
      ∧ (∀ (db2 : StateDB) (id t e u r now2 : PyStr),
          countSkipped (markSkipped db2 id t e u r now2) id = 1
          ∧ (markSkipped db2 id t e u r now2).conn.applied = db2.conn.applied) := by
  intro cfg db stats card fetch applyRes now hq
  constructor
  · unfold processCard
    simp only [hq, if_pos]
    by_cases hr : (quickFilter cfg db card).reason = pstr "already_seen"
    · simp [hr]
    · simp [hr]
  · intro db2 id t e u r now2
    exact ⟨countKey_upsert_self id _ db2.conn.skipped, rfl⟩

/-- dbSeen is a ledger in which the scenario id is already recorded as
skipped. -/
def dbSeen : StateDB :=
  markSkipped emptyDB (pstr "12345") (pstr "Python junior") (pstr "Acme")
    (pstr "https://hh.ru/vacancy/12345") (pstr "blocked_keyword:junior")
    (pstr "2024-01-01T00:00:00")

/-- cfgKw is the default configuration with one denylisted title
keyword, so the scenario card quick-skips for a reason other than
"already_seen". -/
def cfgKw : Config :=
  { configDefault with
    filters := { configDefault.filters with blocked_keywords := [pstr "junior"] } }

/-- C10 witness: the theorem at a ledger that has already seen the
card (reason "already_seen", no write) and at a keyword-blocked card on
a fresh ledger (reason "blocked_keyword:junior", one upserted skip
record). -/
theorem C10_already_seen_frame_witness :
    (processCard configDefault dbSeen statsZero cardW .fetchError .unexpectedErr
        (pstr "2024-01-02")
      = ((if (quickFilter configDefault dbSeen cardW).reason = pstr "already_seen"
          then dbSeen
          else markSkipped dbSeen cardW.vacancy_id cardW.title cardW.employer cardW.url
            (quickFilter configDefault dbSeen cardW).reason (pstr "2024-01-02")),
         { statsZero with
           skipped := statsZero.skipped + 1
           skip_reasons := histIncr statsZero.skip_reasons
             (quickFilter configDefault dbSeen cardW).reason }))
    ∧ (processCard cfgKw emptyDB statsZero cardW .fetchError .unexpectedErr
        (pstr "2024-01-02")
      = ((if (quickFilter cfgKw emptyDB cardW).reason = pstr "already_seen"
          then emptyDB
          else markSkipped emptyDB cardW.vacancy_id cardW.title cardW.employer cardW.url
            (quickFilter cfgKw emptyDB cardW).reason (pstr "2024-01-02")),
         { statsZero with
           skipped := statsZero.skipped + 1
           skip_reasons := histIncr statsZero.skip_reasons
             (quickFilter cfgKw emptyDB cardW).reason })) :=
  ⟨(C10_already_seen_frame configDefault dbSeen statsZero cardW .fetchError
      .unexpectedErr (pstr "2024-01-02") (by decide)).1,
   (C10_already_seen_frame cfgKw emptyDB statsZero cardW .fetchError
      .unexpectedErr (pstr "2024-01-02") (by decide)).1⟩

end HHBot
